import Mathlib

/-!
Shallow embedding of the social-scheduler core (src/social_scheduler/scheduler.py
and src/social_scheduler/post.py): the weekly usage-quota tracker, the durable
schedule queue, and the Post model with its CSV-row serialization.

Modelling conventions:
* timestamps (`datetime.utcnow()` values) are integer seconds; a call that
  reads the clock takes the current time `now` as an explicit argument;
* Python strings are `List Char`; Python `str.strip()`, `str.lower()`,
  `",".join` and `str.split(",")` are embedded below;
* the mutable `self._usage` dict together with the on-disk `usage.json` is a
  `TrackerState`; `_save_usage` is the assignment of the in-memory record to
  the `file` component; a missing or corrupt file is `Option.none`;
* fallible Python code (raised `ValueError` and pydantic validation errors)
  returns `Option`.
-/

namespace SocialScheduler

/-- `UsageTracker.FREE_TIER_LIMIT` (scheduler.py line 40). -/
def FREE_TIER_LIMIT : Int := 5

/-- `UsageTracker.WEEK_IN_SECONDS` (scheduler.py line 41). -/
def WEEK_IN_SECONDS : Int := 7 * 24 * 60 * 60

/-- The usage record `self._usage`: the three fields of `usage.json`
(`posts_this_week`, `week_start`, `is_premium`).  `posts_this_week` is an
unbounded Python `int`, so it is embedded as `Int`; `week_start` is the
ISO-8601 timestamp, embedded as integer seconds. -/
structure Usage where
  posts_this_week : Int
  week_start : Int
  is_premium : Bool
  deriving DecidableEq

/-- The full state a `UsageTracker` touches: the in-memory dict `self._usage`
and the contents of the usage file (`none` when the file is missing or
unreadable). -/
structure TrackerState where
  mem : Usage
  file : Option Usage
  deriving DecidableEq

/-- The second component of `can_post`'s return value: `float("inf")` for
premium accounts, an ordinary integer otherwise. -/
inductive Remaining where
  | unbounded : Remaining
  | fin : Int → Remaining
  deriving DecidableEq

/-- `UsageTracker._is_new_week` (scheduler.py lines 65-68):
`(datetime.utcnow() - week_start).total_seconds() > self.WEEK_IN_SECONDS`. -/
def is_new_week (now : Int) (u : Usage) : Bool :=
  decide (now - u.week_start > WEEK_IN_SECONDS)

/-- `UsageTracker.can_post` (scheduler.py lines 70-81).  Premium returns
`(True, float("inf"))` at once; otherwise the window is lazily rolled in
memory and `remaining = FREE_TIER_LIMIT - posts_this_week` is reported.  The
usage file is not written. -/
def can_post (now : Int) (s : TrackerState) : (Bool × Remaining) × TrackerState :=
  if s.mem.is_premium then
    ((true, Remaining.unbounded), s)
  else
    let u := if is_new_week now s.mem then
        { s.mem with posts_this_week := 0, week_start := now }
      else s.mem
    let remaining := FREE_TIER_LIMIT - u.posts_this_week
    ((decide (remaining > 0), Remaining.fin remaining), { s with mem := u })

/-- `UsageTracker.record_post` (scheduler.py lines 83-94).  Premium returns
`True` immediately (nothing is counted or saved); otherwise `can_post` is
re-derived, a denied call returns `False` without saving, and an allowed call
adds `platform_count` and persists the record (`_save_usage`). -/
def record_post (now : Int) (platform_count : Int) (s : TrackerState) :
    Bool × TrackerState :=
  if s.mem.is_premium then
    (true, s)
  else
    let r := can_post now s
    if r.1.1 then
      let mem := { r.2.mem with
        posts_this_week := r.2.mem.posts_this_week + platform_count }
      (true, { mem := mem, file := some mem })
    else
      (false, r.2)

/-- The dictionary `UsageTracker.get_usage_info` returns
(scheduler.py lines 96-106). -/
structure UsageInfo where
  can_post : Bool
  posts_this_week : Int
  remaining_this_week : Remaining
  limit : Int
  is_premium : Bool
  week_start : Int
  deriving DecidableEq

/-- `UsageTracker.get_usage_info` (scheduler.py lines 96-106): calls
`can_post` (whose lazy roll may update the in-memory record) and reads the
fields afterwards; nothing is saved. -/
def get_usage_info (now : Int) (s : TrackerState) : UsageInfo × TrackerState :=
  let r := can_post now s
  ({ can_post := r.1.1,
     posts_this_week := r.2.mem.posts_this_week,
     remaining_this_week := r.1.2,
     limit := FREE_TIER_LIMIT,
     is_premium := r.2.mem.is_premium,
     week_start := r.2.mem.week_start }, r.2)

/-- `UsageTracker.upgrade_to_premium` (scheduler.py lines 108-113): sets
`is_premium` unconditionally and persists (the api key is never inspected). -/
def upgrade_to_premium (s : TrackerState) : Bool × TrackerState :=
  let mem := { s.mem with is_premium := true }
  (true, { mem := mem, file := some mem })

/-- A whole-window run of unit `record_post` calls: one call with
`platform_count = 1` at each listed time, in order. -/
def runUnitRecords (times : List Int) (s : TrackerState) : TrackerState :=
  times.foldl (fun s t => (record_post t 1 s).2) s

/-- A fresh non-premium tracker state: counter 0, window started at 0. -/
def freshState : TrackerState :=
  { mem := { posts_this_week := 0, week_start := 0, is_premium := false },
    file := none }

/-- A non-premium state holding 3 posts in a window that started at time 0. -/
def stateThree : TrackerState :=
  { mem := { posts_this_week := 3, week_start := 0, is_premium := false },
    file := some { posts_this_week := 3, week_start := 0, is_premium := false } }

/-- A non-premium state holding 7 posts (over the limit, reachable through a
`record_post` whose count overshoots the remaining quota). -/
def stateSeven : TrackerState :=
  { mem := { posts_this_week := 7, week_start := 0, is_premium := false },
    file := some { posts_this_week := 7, week_start := 0, is_premium := false } }

/-- A non-premium state at the quota limit. -/
def stateFive : TrackerState :=
  { mem := { posts_this_week := 5, week_start := 0, is_premium := false },
    file := some { posts_this_week := 5, week_start := 0, is_premium := false } }

/-- A premium state whose counter is over the free-tier limit. -/
def statePremiumSeven : TrackerState :=
  { mem := { posts_this_week := 7, week_start := 0, is_premium := true },
    file := some { posts_this_week := 7, week_start := 0, is_premium := true } }

/-- A premium state with an empty counter. -/
def statePremiumZero : TrackerState :=
  { mem := { posts_this_week := 0, week_start := 0, is_premium := true },
    file := some { posts_this_week := 0, week_start := 0, is_premium := true } }

/-! ## Embedded Python string primitives -/

/-- The whitespace set of Python `str.strip()`. -/
def isPySpace (c : Char) : Bool :=
  c = ' ' ∨ c = '\t' ∨ c = '\n' ∨ c = '\r' ∨ c = '\x0b' ∨ c = '\x0c'

/-- Python `s.strip()`: drop leading and trailing whitespace. -/
def pyStrip (s : List Char) : List Char :=
  ((s.dropWhile isPySpace).reverse.dropWhile isPySpace).reverse

/-- Python `s.lower()` (the tokens this code base compares are ASCII). -/
def pyLower (s : List Char) : List Char := s.map Char.toLower

/-- Python `",".join(xs)`. -/
def joinComma : List (List Char) → List Char
  | [] => []
  | [x] => x
  | x :: y :: rest => x ++ ',' :: joinComma (y :: rest)

/-- Python `s.split(",")`: the result is never empty, and `""` splits to
`[""]`. -/
def splitComma : List Char → List (List Char)
  | [] => [[]]
  | c :: cs =>
    match splitComma cs with
    | [] => [[]]
    | r :: rs => if c = ',' then [] :: r :: rs else (c :: r) :: rs

/-- The ten decimal digit characters (used to embed Python `str(n)`). -/
def digitChar (d : Nat) : Char :=
  if d = 0 then '0' else if d = 1 then '1' else if d = 2 then '2'
  else if d = 3 then '3' else if d = 4 then '4' else if d = 5 then '5'
  else if d = 6 then '6' else if d = 7 then '7' else if d = 8 then '8' else '9'

/-- Decimal value of a digit character (inverse of `digitChar`). -/
def charVal (c : Char) : Nat :=
  if c = '0' then 0 else if c = '1' then 1 else if c = '2' then 2
  else if c = '3' then 3 else if c = '4' then 4 else if c = '5' then 5
  else if c = '6' then 6 else if c = '7' then 7 else if c = '8' then 8 else 9

/-- Fuelled decimal rendering (structural recursion so the kernel can
evaluate it; the fuel never runs out when it is at least the digit count). -/
def natDigitsAux : Nat → Nat → List Char
  | 0, _ => []
  | fuel + 1, n =>
    if n < 10 then [digitChar n]
    else natDigitsAux fuel (n / 10) ++ [digitChar (n % 10)]

/-- Python `str(n)` for a natural number. -/
def natDigits (n : Nat) : List Char := natDigitsAux (n + 1) n

/-- Reading a decimal rendering back (the proof-side inverse of
`natDigits`). -/
def parseDigits (l : List Char) : Nat :=
  l.foldl (fun a c => a * 10 + charVal c) 0

/-! ## The Post model (post.py) -/

/-- post.py `Platform` enum values. -/
inductive Platform where
  | twitter
  | linkedin
  | instagram
  | all
  deriving DecidableEq

/-- `Platform.value`: the string payload of each enum member. -/
def Platform.value : Platform → List Char
  | .twitter => "twitter".data
  | .linkedin => "linkedin".data
  | .instagram => "instagram".data
  | .all => "all".data

/-- `Platform.from_string` (post.py lines 20-38): lowercase, strip, look the
token up in the alias mapping; an unknown token raises `ValueError`,
embedded as `none`. -/
def Platform.from_string (value : List Char) : Option Platform :=
  let normalized := pyStrip (pyLower value)
  if normalized = "twitter".data ∨ normalized = "x".data ∨ normalized = "t".data then
    some .twitter
  else if normalized = "linkedin".data ∨ normalized = "li".data then
    some .linkedin
  else if normalized = "instagram".data ∨ normalized = "ig".data ∨
      normalized = "insta".data then
    some .instagram
  else if normalized = "all".data ∨ normalized = "*".data then
    some .all
  else
    none

/-- post.py `Post` (a pydantic model), restricted to the fields the verified
operations read or write; the bookkeeping fields none of them touch
(`mentions`, `status`, `created_at`, `posted_at`, `error_message`) are
omitted.  `media_paths` entries stay raw strings: `Path` normalization is
Python standard-library behaviour no claim compares.  `scheduled_time` is a
timestamp in integer seconds (`datetime` values are serialized through the
`iso`/`fromiso` parameters below). -/
structure Post where
  id : Option (List Char) := none
  content : List Char
  platforms : List Platform := []
  scheduled_time : Option Nat := none
  media_paths : List (List Char) := []
  alt_text : Option (List Char) := none
  hashtags : List (List Char) := []
  link : Option (List Char) := none
  deriving DecidableEq

/-- `Post.validate_tags` on an already-list input:
`[str(t).strip() for t in v if t]`. -/
def validate_tags (v : List (List Char)) : List (List Char) :=
  (v.filter (fun t => !t.isEmpty)).map pyStrip

/-- `Post.validate_media_paths` on an already-list input:
`[Path(p) for p in v if p]`. -/
def validate_media_paths (v : List (List Char)) : List (List Char) :=
  v.filter (fun p => !p.isEmpty)

/-- Constructing a pydantic `Post(...)` the way `from_csv_row` does: the
content is validated against `min_length=1, max_length=2000` and the
list-shaped validators run; a validation error is `none`. -/
def mkPost (content : List Char) (platforms : List Platform)
    (scheduled_time : Option Nat) (media_paths : List (List Char))
    (alt_text : Option (List Char)) (hashtags : List (List Char))
    (link : Option (List Char)) : Option Post :=
  if 1 ≤ content.length ∧ content.length ≤ 2000 then
    some { id := none, content := content, platforms := platforms,
           scheduled_time := scheduled_time,
           media_paths := validate_media_paths media_paths,
           alt_text := alt_text, hashtags := validate_tags hashtags,
           link := link }
  else
    none

/-- Python `s[:k]` for an `int` bound: a negative bound counts from the end,
clamped at zero. -/
def pySlice (s : List Char) (k : Int) : List Char :=
  if 0 ≤ k then s.take k.toNat else s.take (s.length - (-k).toNat)

/-- The composed text of `get_full_content` before any truncation: the
content, and — when there are hashtags — a blank line plus the tags each
prefixed with one `#` (existing leading `#` stripped), the whole stripped. -/
def Post.full_text (p : Post) : List Char :=
  if !p.hashtags.isEmpty then
    pyStrip (p.content ++ '\n' :: '\n' :: List.intercalate [' ']
      (p.hashtags.map (fun tag => '#' :: tag.dropWhile (fun c => c = '#'))))
  else
    p.content

/-- `Post.get_full_content` (post.py lines 87-99): the composed text,
hard-truncated to `max_length` characters ending in `"..."` when a truthy
`max_length` is given and the text is longer. -/
def Post.get_full_content (p : Post) (max_length : Option Int := none) :
    List Char :=
  let content := p.full_text
  match max_length with
  | some m =>
    if m ≠ 0 ∧ (content.length : Int) > m then
      pySlice content (m - 3) ++ "...".data
    else content
  | none => content

/-- The flattened string-keyed record `Post.to_csv_row` produces and
`scheduled.json` stores. -/
structure Row where
  content : List Char
  platforms : List Char
  scheduled_time : List Char
  media_paths : List Char
  alt_text : List Char
  hashtags : List Char
  link : List Char
  deriving DecidableEq

/-- `Post.to_csv_row` (post.py lines 101-111).  `datetime.isoformat` is
standard-library code outside this repository, passed in as `iso`. -/
def Post.to_csv_row (iso : Nat → List Char) (p : Post) : Row :=
  { content := p.content,
    platforms := joinComma (p.platforms.map Platform.value),
    scheduled_time := match p.scheduled_time with
      | some t => iso t
      | none => [],
    media_paths := joinComma p.media_paths,
    alt_text := p.alt_text.getD [],
    hashtags := joinComma p.hashtags,
    link := p.link.getD [] }

/-- The list comprehension `[Platform.from_string(p.strip()) for p in ...]`:
the first token that raises `ValueError` fails the whole list. -/
def fromStringAll : List (List Char) → Option (List Platform)
  | [] => some []
  | p :: rest =>
    match Platform.from_string (pyStrip p) with
    | none => none
    | some pl =>
      match fromStringAll rest with
      | none => none
      | some pls => some (pl :: pls)

/-- `Post.parse_platforms` (post.py lines 134-139): `none` when a token makes
`from_string` raise. -/
def Post.parse_platforms (value : List Char) : Option (List Platform) :=
  if value.isEmpty then some []
  else
    fromStringAll ((splitComma value).filter (fun p => !(pyStrip p).isEmpty))

/-- `Post.parse_media_paths` (post.py lines 141-146). -/
def Post.parse_media_paths (value : List Char) : List (List Char) :=
  if value.isEmpty then []
  else
    ((splitComma value).filter (fun p => !(pyStrip p).isEmpty)).map pyStrip

/-- `Post.from_csv_row` (post.py lines 113-132).  `datetime.fromisoformat`
is standard-library code, passed in as `fromiso` (returning `none` models
the caught `ValueError`, so an unparsable `scheduled_time` stays `None`);
a `ValueError` out of platform parsing propagates, so it makes the whole
call fail (`none`); the pydantic construction re-runs the validators. -/
def Post.from_csv_row (fromiso : List Char → Option Nat) (row : Row) :
    Option Post :=
  let scheduled_time :=
    if row.scheduled_time.isEmpty then none else fromiso row.scheduled_time
  match Post.parse_platforms row.platforms with
  | none => none
  | some platforms =>
    mkPost row.content platforms scheduled_time
      (Post.parse_media_paths row.media_paths)
      (if row.alt_text.isEmpty then none else some row.alt_text)
      (((splitComma row.hashtags).filter
          (fun h => !(pyStrip h).isEmpty)).map pyStrip)
      (if row.link.isEmpty then none else some row.link)

/-! ## The schedule queue (scheduler.py) -/

/-- The identifier `schedule_post` generates: `f"post_{timestamp}"` with the
timestamp modelled at integer-second resolution. -/
def postIdOf (now : Nat) : List Char := "post_".data ++ natDigits now

/-- `SocialScheduler.schedule_post` (scheduler.py lines 400-420): load the
stored sequence (a missing or unreadable file reads as `[]`), stamp the post
with the generated identifier, append the serialized row, write the whole
sequence back, return `True`.  Result: (the returned value, the mutated
post, the new file contents). -/
def schedule_post (iso : Nat → List Char) (now : Nat) (post : Post)
    (file : Option (List Row)) : Bool × Post × List Row :=
  let scheduled_posts := file.getD []
  let post := { post with id := some (postIdOf now) }
  (true, post, scheduled_posts ++ [Post.to_csv_row iso post])

/-- The due test of `run_scheduled`'s loop: `scheduled_time` parses and is
`≤ now` (a parsed datetime is always truthy, so the extra truthiness check
in the code changes nothing). -/
def isDue (fromiso : List Char → Option Nat) (now : Nat) (r : Row) : Bool :=
  match fromiso r.scheduled_time with
  | some t => t ≤ now
  | none => false

/-- `SocialScheduler.run_scheduled` (scheduler.py lines 422-463) up to the
dispatch loop: a missing or unreadable queue file yields no due posts and
leaves the file alone; otherwise the stored sequence is split, in order,
into due rows and the rest (a row whose `scheduled_time` does not parse goes
to the rest), the rest is written back, and the due rows are then handed to
dispatch.  Result: (the due rows, the file contents after the call). -/
def run_scheduled (fromiso : List Char → Option Nat) (now : Nat)
    (file : Option (List Row)) : List Row × Option (List Row) :=
  match file with
  | none => ([], none)
  | some scheduled_posts =>
    let parts := scheduled_posts.foldl
      (fun (acc : List Row × List Row) post_data =>
        if isDue fromiso now post_data then (acc.1 ++ [post_data], acc.2)
        else (acc.1, acc.2 ++ [post_data]))
      ([], [])
    (parts.1, some parts.2)

/-! ## Concrete sample data -/

/-- A minimal valid post. -/
def samplePost : Post := { content := "hi".data }

/-- The round-trip example of the spec: platforms twitter and linkedin,
hashtags `test` and `demo`. -/
def samplePostFull : Post :=
  { content := "hello".data,
    platforms := [Platform.twitter, Platform.linkedin],
    hashtags := ["test".data, "demo".data],
    link := none }

/-- A post whose content is 300 characters long. -/
def samplePost300 : Post := { content := List.replicate 300 'a' }

/-- A post with a four-character content. -/
def samplePostShort : Post := { content := "aaaa".data }

/-! ## Usage-tracker lemmas -/

theorem is_new_week_eq_false {now : Int} {u : Usage}
    (h : now - u.week_start ≤ WEEK_IN_SECONDS) : is_new_week now u = false := by
  simp only [is_new_week, decide_eq_false_iff_not, not_lt]
  exact h

theorem can_post_in_window {now : Int} {s : TrackerState}
    (hprem : s.mem.is_premium = false)
    (hnw : is_new_week now s.mem = false) :
    can_post now s =
      ((decide (FREE_TIER_LIMIT - s.mem.posts_this_week > 0),
        Remaining.fin (FREE_TIER_LIMIT - s.mem.posts_this_week)), s) := by
  cases s with
  | mk mem file =>
    simp [can_post, show mem.is_premium = false from hprem,
      show is_new_week now mem = false from hnw]

theorem can_post_new_week {now : Int} {s : TrackerState}
    (hprem : s.mem.is_premium = false)
    (hnw : is_new_week now s.mem = true) :
    can_post now s =
      ((true, Remaining.fin FREE_TIER_LIMIT),
       { s with mem :=
          { s.mem with posts_this_week := 0, week_start := now } }) := by
  simp [can_post, hprem, hnw, FREE_TIER_LIMIT]

theorem runUnitRecords_nil (s : TrackerState) : runUnitRecords [] s = s := rfl

theorem runUnitRecords_cons (t : Int) (ts : List Int) (s : TrackerState) :
    runUnitRecords (t :: ts) s = runUnitRecords ts (record_post t 1 s).2 := rfl

/-- One in-window unit `record_post` on a non-premium state: the premium flag
and the window start are untouched, and the counter grows by one exactly when
it was still under the limit. -/
theorem record_post_unit_step {t : Int} {s : TrackerState}
    (hprem : s.mem.is_premium = false)
    (hnw : is_new_week t s.mem = false) :
    (record_post t 1 s).2.mem.is_premium = false ∧
    (record_post t 1 s).2.mem.week_start = s.mem.week_start ∧
    ((s.mem.posts_this_week < 5 ∧
        (record_post t 1 s).2.mem.posts_this_week = s.mem.posts_this_week + 1) ∨
     (5 ≤ s.mem.posts_this_week ∧
        (record_post t 1 s).2.mem.posts_this_week = s.mem.posts_this_week)) := by
  have hc := can_post_in_window hprem hnw
  by_cases hp : s.mem.posts_this_week < 5
  · refine ⟨?_, ?_, Or.inl ⟨hp, ?_⟩⟩ <;>
      simp [record_post, hprem, hc, hp, FREE_TIER_LIMIT]
  · refine ⟨?_, ?_, Or.inr ⟨by omega, ?_⟩⟩ <;>
      simp [record_post, hprem, hc, hp, FREE_TIER_LIMIT]

/-- Running unit `record_post` calls at in-window times keeps the tracker
non-premium, keeps the window start, and keeps the counter within `[0, 5]`. -/
theorem runUnitRecords_invariant (times : List Int) (s : TrackerState)
    (hprem : s.mem.is_premium = false)
    (h0 : 0 ≤ s.mem.posts_this_week) (h5 : s.mem.posts_this_week ≤ 5)
    (hw : ∀ t ∈ times, t - s.mem.week_start ≤ WEEK_IN_SECONDS) :
    (runUnitRecords times s).mem.is_premium = false ∧
    (runUnitRecords times s).mem.week_start = s.mem.week_start ∧
    0 ≤ (runUnitRecords times s).mem.posts_this_week ∧
    (runUnitRecords times s).mem.posts_this_week ≤ 5 := by
  induction times generalizing s with
  | nil => exact ⟨hprem, rfl, h0, h5⟩
  | cons t ts ih =>
    have hwt : t - s.mem.week_start ≤ WEEK_IN_SECONDS := hw t (by simp)
    have hnw : is_new_week t s.mem = false := is_new_week_eq_false hwt
    have hstep := record_post_unit_step hprem hnw
    rw [runUnitRecords_cons]
    have ih' := ih (record_post t 1 s).2 hstep.1 (by omega) (by omega)
      (by intro t' ht'; rw [hstep.2.1]; exact hw t' (by simp [ht']))
    exact ⟨ih'.1, by rw [ih'.2.1, hstep.2.1], ih'.2.2.1, ih'.2.2.2⟩

/-! ## Claim theorems: the usage tracker -/

/-- C1 (amended): for every sequence of unit `record_post` calls (count 1)
performed at times within the quota window of a fresh non-premium counter,
`posts_this_week` never exceeds 5 along the run, and once the counter has
reached 5 a further in-window attempt is rejected: `can_post` returns
`(false, 0)` and `record_post` returns `false`. -/
theorem free_tier_unit_records_bounded (times : List Int) (s : TrackerState)
    (hprem : s.mem.is_premium = false)
    (hstart : s.mem.posts_this_week = 0)
    (hw : ∀ t ∈ times, t - s.mem.week_start ≤ WEEK_IN_SECONDS) :
    (∀ n, (runUnitRecords (times.take n) s).mem.posts_this_week ≤ 5) ∧
    (∀ t, t - s.mem.week_start ≤ WEEK_IN_SECONDS →
      (runUnitRecords times s).mem.posts_this_week = 5 →
        (can_post t (runUnitRecords times s)).1 = (false, Remaining.fin 0) ∧
        (record_post t 1 (runUnitRecords times s)).1 = false) := by
  constructor
  · intro n
    exact (runUnitRecords_invariant (times.take n) s hprem (by omega) (by omega)
      (fun t ht => hw t (List.take_subset n times ht))).2.2.2
  · intro t ht hfive
    have inv := runUnitRecords_invariant times s hprem (by omega) (by omega) hw
    have hnw : is_new_week t (runUnitRecords times s).mem = false :=
      is_new_week_eq_false (by rw [inv.2.1]; exact ht)
    have hc := can_post_in_window inv.1 hnw
    constructor
    · rw [hc, hfive]
      simp [FREE_TIER_LIMIT]
    · simp [record_post, inv.1, hc, hfive, FREE_TIER_LIMIT]

/-- C1 witness: seven unit records at time 0 on a fresh tracker stop at 5,
and the sixth unit of usage is rejected with `(false, 0)`. -/
theorem free_tier_unit_records_bounded_witness :
    (runUnitRecords (List.take 7 [0, 0, 0, 0, 0, 0, 0]) freshState).mem.posts_this_week ≤ 5 ∧
    ((can_post 0 (runUnitRecords [0, 0, 0, 0, 0, 0, 0] freshState)).1 =
        (false, Remaining.fin 0) ∧
      (record_post 0 1 (runUnitRecords [0, 0, 0, 0, 0, 0, 0] freshState)).1 = false) :=
  ⟨(free_tier_unit_records_bounded [0, 0, 0, 0, 0, 0, 0] freshState (by decide)
      (by decide) (by decide)).1 7,
   (free_tier_unit_records_bounded [0, 0, 0, 0, 0, 0, 0] freshState (by decide)
      (by decide) (by decide)).2 0 (by decide) (by decide)⟩

/-- C1 counterexample: a single in-window `record_post` whose count is 6 on a
fresh non-premium tracker is accepted and pushes `posts_this_week` to 6, so
the counter does exceed 5 for sequences with counts larger than 1. -/
theorem record_post_count_overshoots_limit :
    (record_post 0 6 freshState).1 = true ∧
    (record_post 0 6 freshState).2.mem.posts_this_week = 6 ∧
    ¬((record_post 0 6 freshState).2.mem.posts_this_week ≤ 5) := by decide

/-- C2 (amended): on a non-premium state, `can_post` resets the counter to 0
and advances `week_start` to `now` when the elapsed time since `week_start`
STRICTLY exceeds 7 days, regardless of the prior count. -/
theorem can_post_resets_after_strict_week (now : Int) (s : TrackerState)
    (hprem : s.mem.is_premium = false)
    (helapsed : now - s.mem.week_start > WEEK_IN_SECONDS) :
    (can_post now s).2.mem.posts_this_week = 0 ∧
    (can_post now s).2.mem.week_start = now := by
  have hnw : is_new_week now s.mem = true := by
    simp only [is_new_week, decide_eq_true_eq]
    exact helapsed
  rw [can_post_new_week hprem hnw]
  exact ⟨rfl, rfl⟩

/-- C2 witness: one second past the 7-day mark, the counter of 3 is reset. -/
theorem can_post_resets_after_strict_week_witness :
    (can_post 604801 stateThree).2.mem.posts_this_week = 0 ∧
    (can_post 604801 stateThree).2.mem.week_start = 604801 :=
  can_post_resets_after_strict_week 604801 stateThree (by decide) (by decide)

/-- C2 counterexample: at an elapsed time of exactly 7×24×3600 seconds (which
is `≥ 7` days) the next `can_post` does NOT reset: the comparison in
`_is_new_week` is strict, so the counter of 3 and the old `week_start`
survive. -/
theorem can_post_no_reset_at_exactly_one_week :
    (604800 : Int) - stateThree.mem.week_start ≥ 7 * 24 * 3600 ∧
    stateThree.mem.is_premium = false ∧
    (can_post 604800 stateThree).2.mem.posts_this_week = 3 ∧
    (can_post 604800 stateThree).2.mem.week_start = 0 := by decide

/-- C3 (amended): for every non-premium state, after the lazy roll `can_post`
returns `remaining = FREE_TIER_LIMIT - posts_this_week` WITHOUT clamping at
0 (so it is negative when the counter exceeds 5), and `allowed` is
`remaining > 0`. -/
theorem can_post_remaining_unclamped (now : Int) (s : TrackerState)
    (hprem : s.mem.is_premium = false) :
    (can_post now s).1 =
      (decide (FREE_TIER_LIMIT - (can_post now s).2.mem.posts_this_week > 0),
       Remaining.fin (FREE_TIER_LIMIT - (can_post now s).2.mem.posts_this_week)) := by
  cases hnw : is_new_week now s.mem with
  | false => rw [can_post_in_window hprem hnw]
  | true => rw [can_post_new_week hprem hnw]; simp [FREE_TIER_LIMIT]

/-- C3 witness: with the counter at 7 the call reports `(false, 5 - 7)`. -/
theorem can_post_remaining_unclamped_witness :
    (can_post 0 stateSeven).1 =
      (decide (FREE_TIER_LIMIT - (can_post 0 stateSeven).2.mem.posts_this_week > 0),
       Remaining.fin (FREE_TIER_LIMIT - (can_post 0 stateSeven).2.mem.posts_this_week)) :=
  can_post_remaining_unclamped 0 stateSeven (by decide)

/-- C3 counterexample: with `posts_this_week = 7` the code returns
`remaining = -2`, not `max(0, 5 - 7) = 0`: `remaining` CAN be negative. -/
theorem can_post_remaining_negative_not_clamped :
    (can_post 0 stateSeven).1 = (false, Remaining.fin (-2)) ∧
    Remaining.fin (-2) ≠
      Remaining.fin (max 0 (FREE_TIER_LIMIT - stateSeven.mem.posts_this_week)) := by
  decide

/-- C4 (confirmed): when `can_post` reports not-allowed on a non-premium
state, `record_post` returns `false` and mutates nothing: the in-memory
record (counter and window start) and the persisted usage file are unchanged. -/
theorem record_post_denied_no_mutation (now count : Int) (s : TrackerState)
    (hprem : s.mem.is_premium = false)
    (hdenied : (can_post now s).1.1 = false) :
    record_post now count s = (false, s) := by
  have hnw : is_new_week now s.mem = false := by
    cases hnw : is_new_week now s.mem with
    | false => rfl
    | true => rw [can_post_new_week hprem hnw] at hdenied; simp at hdenied
  have hc := can_post_in_window hprem hnw
  rw [hc] at hdenied
  simp only [decide_eq_false_iff_not, not_lt] at hdenied
  simp [record_post, hprem, hc, hdenied]
  omega

/-- C4 witness: at the limit (counter 5), a denied `record_post` leaves the
whole state — memory and file — identical. -/
theorem record_post_denied_no_mutation_witness :
    record_post 0 1 stateFive = (false, stateFive) :=
  record_post_denied_no_mutation 0 1 stateFive (by decide) (by decide)

/-- C5 (amended): a premium state makes `can_post` return
`(true, unbounded)` — even with the counter over 5 — and makes `record_post`
return `true` WITHOUT touching the state: the counter is NOT incremented for
premium accounts (the premium branch returns before counting). -/
theorem premium_bypasses_quota (now count : Int) (s : TrackerState)
    (hprem : s.mem.is_premium = true) :
    can_post now s = ((true, Remaining.unbounded), s) ∧
    record_post now count s = (true, s) := by
  constructor <;> simp [can_post, record_post, hprem]

/-- C5 witness: a premium state with counter 7 (over the limit) is allowed
with unbounded remaining, and `record_post` leaves it untouched. -/
theorem premium_bypasses_quota_witness :
    can_post 0 statePremiumSeven = ((true, Remaining.unbounded), statePremiumSeven) ∧
    record_post 0 1 statePremiumSeven = (true, statePremiumSeven) :=
  premium_bypasses_quota 0 1 statePremiumSeven (by decide)

/-- C5 counterexample: on a premium account `record_post` returns `true` but
the counter stays 0 — usage is NOT tracked for observability as claimed. -/
theorem record_post_premium_not_counted :
    (record_post 0 1 statePremiumZero).1 = true ∧
    (record_post 0 1 statePremiumZero).2.mem.posts_this_week = 0 ∧
    (record_post 0 1 statePremiumZero).2.mem.posts_this_week ≠
      statePremiumZero.mem.posts_this_week + 1 := by decide

/-- C10 (confirmed): `can_post` — including a call that performs the lazy
weekly reset — and the read-only `get_usage_info` never write the usage
file; only `record_post` (on success) and `upgrade_to_premium` assign it. -/
theorem can_post_never_writes_usage_file (now : Int) (s : TrackerState) :
    (can_post now s).2.file = s.file ∧ (get_usage_info now s).2.file = s.file := by
  cases s with
  | mk mem file =>
    by_cases h : mem.is_premium <;>
      simp [can_post, get_usage_info, h]

/-! ## String lemmas -/

theorem splitComma_ne_nil (s : List Char) : splitComma s ≠ [] := by
  cases s with
  | nil => simp [splitComma]
  | cons c cs =>
    simp only [splitComma]
    cases h : splitComma cs with
    | nil => simp
    | cons r rs => by_cases hc : c = ',' <;> simp [hc]

theorem splitComma_no_comma {x : List Char} (h : ',' ∉ x) : splitComma x = [x] := by
  induction x with
  | nil => rfl
  | cons c cs ih =>
    have hc : c ≠ ',' := fun e => h (by simp [e])
    have hcs : ',' ∉ cs := fun m => h (by simp [m])
    simp [splitComma, ih hcs, hc]

theorem splitComma_append_comma {x : List Char} (s : List Char) (h : ',' ∉ x) :
    splitComma (x ++ ',' :: s) = x :: splitComma s := by
  induction x with
  | nil =>
    simp only [List.nil_append, splitComma]
    cases hs : splitComma s with
    | nil => exact absurd hs (splitComma_ne_nil s)
    | cons r rs => simp
  | cons c cs ih =>
    have hc : c ≠ ',' := fun e => h (by simp [e])
    have hcs : ',' ∉ cs := fun m => h (by simp [m])
    show splitComma (c :: (cs ++ ',' :: s)) = _
    simp only [splitComma]
    rw [ih hcs]
    simp [hc]

/-- Splitting is a left inverse of joining for a non-empty list of comma-free
pieces (the exact shape `Post.from_csv_row` relies on). -/
theorem splitComma_joinComma {xs : List (List Char)} (hne : xs ≠ [])
    (h : ∀ x ∈ xs, ',' ∉ x) : splitComma (joinComma xs) = xs := by
  induction xs with
  | nil => exact absurd rfl hne
  | cons x rest ih =>
    cases rest with
    | nil => exact splitComma_no_comma (h x (by simp))
    | cons y rest2 =>
      show splitComma (x ++ ',' :: joinComma (y :: rest2)) = _
      rw [splitComma_append_comma _ (h x (by simp))]
      rw [ih (by simp) (fun z hz => h z (by simp [hz]))]

/-! ## Decimal-rendering lemmas -/

theorem charVal_digitChar {d : Nat} (h : d < 10) : charVal (digitChar d) = d := by
  interval_cases d <;> rfl

theorem parseDigits_append (l : List Char) (c : Char) :
    parseDigits (l ++ [c]) = parseDigits l * 10 + charVal c := by
  simp [parseDigits, List.foldl_append]

theorem parseDigits_natDigitsAux :
    ∀ fuel n : Nat, n < fuel → parseDigits (natDigitsAux fuel n) = n := by
  intro fuel
  induction fuel with
  | zero => intro n h; omega
  | succ f ih =>
    intro n h
    rw [natDigitsAux]
    by_cases h10 : n < 10
    · simp [h10, parseDigits, charVal_digitChar h10]
    · have hdiv : n / 10 < n := Nat.div_lt_self (by omega) (by omega)
      have hrec := ih (n / 10) (by omega)
      simp [h10, parseDigits_append, hrec,
        charVal_digitChar (Nat.mod_lt n (by omega))]
      omega

theorem parseDigits_natDigits (n : Nat) : parseDigits (natDigits n) = n :=
  parseDigits_natDigitsAux (n + 1) n (by omega)

theorem natDigits_injective {a b : Nat} (h : natDigits a = natDigits b) :
    a = b := by
  have ha := parseDigits_natDigits a
  rw [h, parseDigits_natDigits] at ha
  omega

/-- Distinct timestamps render to distinct generated identifiers. -/
theorem postIdOf_injective {t1 t2 : Nat} (h : t1 ≠ t2) :
    postIdOf t1 ≠ postIdOf t2 := by
  intro he
  exact h (natDigits_injective (List.append_cancel_left he))

/-! ## Platform round-trip lemmas -/

theorem from_string_of_value (pl : Platform) :
    Platform.from_string (pyStrip (Platform.value pl)) = some pl := by
  cases pl <;> rfl

theorem pyStrip_value (pl : Platform) :
    pyStrip (Platform.value pl) = Platform.value pl := by
  cases pl <;> rfl

theorem value_ne_nil (pl : Platform) : Platform.value pl ≠ [] := by
  cases pl <;> decide

theorem value_no_comma (pl : Platform) : ',' ∉ Platform.value pl := by
  cases pl <;> decide

theorem fromStringAll_values (ps : List Platform) :
    fromStringAll (ps.map Platform.value) = some ps := by
  induction ps with
  | nil => rfl
  | cons p rest ih => simp [fromStringAll, from_string_of_value, ih]

theorem parse_platforms_joinComma (ps : List Platform) :
    Post.parse_platforms (joinComma (ps.map Platform.value)) = some ps := by
  cases ps with
  | nil => rfl
  | cons p rest =>
    have hmap : ∀ x ∈ (p :: rest).map Platform.value, ',' ∉ x := by
      intro x hx
      obtain ⟨pl, _, rfl⟩ := List.mem_map.mp hx
      exact value_no_comma pl
    have hsplit := splitComma_joinComma (by simp) hmap
    have hne : ¬(joinComma ((p :: rest).map Platform.value)).isEmpty := by
      intro hemp
      have hjoin : joinComma ((p :: rest).map Platform.value) = [] := by
        simpa using hemp
      rw [hjoin] at hsplit
      simp [splitComma] at hsplit
      exact value_ne_nil p hsplit.1
    rw [Post.parse_platforms, if_neg hne, hsplit]
    have hfil : ((p :: rest).map Platform.value).filter
        (fun q => !(pyStrip q).isEmpty) = (p :: rest).map Platform.value := by
      apply List.filter_eq_self.mpr
      intro x hx
      obtain ⟨pl, _, rfl⟩ := List.mem_map.mp hx
      rw [pyStrip_value]
      simpa using value_ne_nil pl
    rw [hfil, fromStringAll_values]

/-! ## Hashtag round-trip lemmas -/

theorem filter_strip_eq_self {hs : List (List Char)}
    (h : ∀ x ∈ hs, x ≠ [] ∧ pyStrip x = x) :
    hs.filter (fun x => !(pyStrip x).isEmpty) = hs := by
  apply List.filter_eq_self.mpr
  intro x hx
  rw [(h x hx).2]
  simpa using (h x hx).1

theorem map_strip_eq_self {hs : List (List Char)}
    (h : ∀ x ∈ hs, pyStrip x = x) : hs.map pyStrip = hs := by
  induction hs with
  | nil => rfl
  | cons x rest ih =>
    simp only [List.map_cons, h x (by simp)]
    rw [ih (fun z hz => h z (by simp [hz]))]

/-- The hashtag field round-trips through join, split, the truthiness filter
and the strip, for stripped non-empty comma-free tags. -/
theorem hashtags_round {hs : List (List Char)}
    (h : ∀ x ∈ hs, x ≠ [] ∧ pyStrip x = x ∧ ',' ∉ x) :
    ((splitComma (joinComma hs)).filter
      (fun x => !(pyStrip x).isEmpty)).map pyStrip = hs := by
  cases hs with
  | nil => rfl
  | cons x rest =>
    rw [splitComma_joinComma (by simp) (fun z hz => (h z hz).2.2)]
    rw [filter_strip_eq_self (fun z hz => ⟨(h z hz).1, (h z hz).2.1⟩)]
    exact map_strip_eq_self (fun z hz => (h z hz).2.1)

theorem validate_tags_id {hs : List (List Char)}
    (h : ∀ x ∈ hs, x ≠ [] ∧ pyStrip x = x) : validate_tags hs = hs := by
  unfold validate_tags
  have hfil : hs.filter (fun t => !t.isEmpty) = hs :=
    List.filter_eq_self.mpr (fun x hx => by simpa using (h x hx).1)
  rw [hfil]
  exact map_strip_eq_self (fun z hz => (h z hz).2)

theorem from_csv_row_some {fromiso : List Char → Option Nat} {row : Row}
    {pls : List Platform}
    (hpp : Post.parse_platforms row.platforms = some pls) :
    Post.from_csv_row fromiso row = mkPost row.content pls
      (if row.scheduled_time.isEmpty then none else fromiso row.scheduled_time)
      (Post.parse_media_paths row.media_paths)
      (if row.alt_text.isEmpty then none else some row.alt_text)
      (((splitComma row.hashtags).filter
          (fun h => !(pyStrip h).isEmpty)).map pyStrip)
      (if row.link.isEmpty then none else some row.link) := by
  unfold Post.from_csv_row
  rw [hpp]

/-! ## Claim theorems: the Post model and the schedule queue -/

/-- Claim C8 (amended): for every pydantic-valid Post — content length in
`[1, 2000]`, hashtags as the validator leaves them (non-empty and already
stripped) and containing no literal commas, link not the empty string —
`from_csv_row(to_csv_row(p))` yields a Post with the same content, the same
platform sequence (hence the same set), the same hashtags and the same
link. -/
theorem csv_row_round_trip (iso : Nat → List Char)
    (fromiso : List Char → Option Nat) (p : Post)
    (hcontent : 1 ≤ p.content.length ∧ p.content.length ≤ 2000)
    (htags : ∀ x ∈ p.hashtags, x ≠ [] ∧ pyStrip x = x ∧ ',' ∉ x)
    (hlink : p.link ≠ some []) :
    (Post.from_csv_row fromiso (Post.to_csv_row iso p)).map Post.content =
        some p.content ∧
    (Post.from_csv_row fromiso (Post.to_csv_row iso p)).map Post.platforms =
        some p.platforms ∧
    (Post.from_csv_row fromiso (Post.to_csv_row iso p)).map Post.hashtags =
        some p.hashtags ∧
    (Post.from_csv_row fromiso (Post.to_csv_row iso p)).map Post.link =
        some p.link := by
  have hpp : Post.parse_platforms (Post.to_csv_row iso p).platforms =
      some p.platforms := parse_platforms_joinComma p.platforms
  have hlink2 : (if (p.link.getD []).isEmpty then none
      else some (p.link.getD [])) = p.link := by
    cases hl : p.link with
    | none => rfl
    | some l =>
      cases l with
      | nil => exact absurd hl hlink
      | cons c cs => rfl
  rw [from_csv_row_some hpp]
  simp only [Post.to_csv_row]
  rw [hashtags_round htags, hlink2]
  unfold mkPost
  rw [if_pos hcontent]
  rw [validate_tags_id (fun z hz => ⟨(htags z hz).1, (htags z hz).2.1⟩)]
  exact ⟨rfl, rfl, rfl, rfl⟩

/-- Claim C8 witness: the spec's example — platforms twitter and linkedin,
hashtags `test` and `demo` — round-trips exactly. -/
theorem csv_row_round_trip_witness :
    (Post.from_csv_row (fun _ => none)
        (Post.to_csv_row (fun _ => []) samplePostFull)).map Post.content =
      some samplePostFull.content ∧
    (Post.from_csv_row (fun _ => none)
        (Post.to_csv_row (fun _ => []) samplePostFull)).map Post.platforms =
      some samplePostFull.platforms ∧
    (Post.from_csv_row (fun _ => none)
        (Post.to_csv_row (fun _ => []) samplePostFull)).map Post.hashtags =
      some samplePostFull.hashtags ∧
    (Post.from_csv_row (fun _ => none)
        (Post.to_csv_row (fun _ => []) samplePostFull)).map Post.link =
      some samplePostFull.link :=
  csv_row_round_trip (fun _ => []) (fun _ => none) samplePostFull
    (by decide) (by decide) (by decide)

/-- Claim C8 counterexample: a pydantic-valid post built from
`Post(hashtags=[" "], link="")` holds the blank hashtag `""` and the empty
link — both comma-free — yet the round trip returns hashtags `[]` and link
`None`: neither the hashtags nor the link survive, so the claim's
no-commas-only precondition is not sufficient. -/
theorem csv_round_trip_drops_blank_hashtag :
    (mkPost "hi".data [] none [] none [" ".data] (some [])).map Post.hashtags =
      some [[]] ∧
    ((mkPost "hi".data [] none [] none [" ".data] (some [])).bind
        (fun p => Post.from_csv_row (fun _ => none)
          (Post.to_csv_row (fun _ => []) p))).map Post.hashtags = some [] ∧
    ((mkPost "hi".data [] none [] none [" ".data] (some [])).bind
        (fun p => Post.from_csv_row (fun _ => none)
          (Post.to_csv_row (fun _ => []) p))).map Post.link = some none ∧
    ([[]] : List (List Char)) ≠ [] ∧
    some ([] : List Char) ≠ none ∧
    ',' ∉ ([] : List Char) := by decide

/-- Claim C6 (amended): `schedule_post` stamps the in-memory post with the
timestamp-derived identifier `post_<timestamp>` (distinct timestamps give
distinct identifiers), appends the serialized row — which does not carry
the identifier, since `to_csv_row` omits the `id` field — to the stored
sequence, persists the whole sequence, and returns `True` rather than the
identifier. -/
theorem schedule_post_appends_and_returns_true (iso : Nat → List Char)
    (now : Nat) (post : Post) (file : Option (List Row)) :
    schedule_post iso now post file =
      (true, { post with id := some (postIdOf now) },
        file.getD [] ++
          [Post.to_csv_row iso { post with id := some (postIdOf now) }]) ∧
    (∀ t1 t2 : Nat, t1 ≠ t2 → postIdOf t1 ≠ postIdOf t2) :=
  ⟨rfl, fun _ _ h => postIdOf_injective h⟩

/-- Claim C6 counterexample: the value `schedule_post` hands back to the
caller is the constant `True` — two calls at different timestamps assign
different identifiers to the post yet return the same value, so the
identifier is not returned. -/
theorem schedule_post_returns_true_not_identifier :
    (schedule_post (fun _ => []) 1 samplePost none).1 = true ∧
    (schedule_post (fun _ => []) 2 samplePost none).1 = true ∧
    (schedule_post (fun _ => []) 1 samplePost none).2.1.id ≠
      (schedule_post (fun _ => []) 2 samplePost none).2.1.id := by decide

/-- The append-to-due-or-rest fold of `run_scheduled` is an order-preserving
partition by the due test. -/
theorem drain_foldl (q : Row → Bool) (rows : List Row) (a b : List Row) :
    rows.foldl
      (fun acc r => if q r then (acc.1 ++ [r], acc.2) else (acc.1, acc.2 ++ [r]))
      (a, b) =
      (a ++ rows.filter q, b ++ rows.filter (fun r => !q r)) := by
  induction rows generalizing a b with
  | nil => simp
  | cons r rs ih => by_cases hq : q r <;> simp [hq, ih, List.filter_cons]

/-- Claim C7 (confirmed): draining a stored queue at time `now` returns as
due exactly the rows whose `scheduled_time` parses to a time `≤ now`, in
their original order, and persists every other row — unparsable
`scheduled_time` included — back as the new queue state, in original
insertion order; the write happens before any due row is dispatched. -/
theorem run_scheduled_partitions (fromiso : List Char → Option Nat) (now : Nat)
    (rows : List Row) :
    run_scheduled fromiso now (some rows) =
      (rows.filter (isDue fromiso now),
        some (rows.filter (fun r => !isDue fromiso now r))) := by
  simp [run_scheduled, drain_foldl]

/-- Claim C9 (amended): whenever the composed full text is longer than a
given `max_length` of at least 3, `get_full_content` returns exactly
`max_length` characters ending in `"..."`.  (For `max_length` below 3 the
negative slice bound makes the result longer than requested.) -/
theorem get_full_content_truncates (p : Post) (m : Int)
    (hm : 3 ≤ m)
    (hlong : ((p.full_text).length : Int) > m) :
    ((Post.get_full_content p (some m)).length : Int) = m ∧
    ∃ pre, Post.get_full_content p (some m) = pre ++ "...".data := by
  have hne : m ≠ 0 := by omega
  have heq : Post.get_full_content p (some m) =
      pySlice p.full_text (m - 3) ++ "...".data := by
    simp [Post.get_full_content, hne, hlong]
  rw [heq]
  refine ⟨?_, ⟨_, rfl⟩⟩
  have h3 : (0 : Int) ≤ m - 3 := by omega
  have hle : (m - 3).toNat ≤ p.full_text.length := by omega
  simp [pySlice, h3, List.length_take, List.length_append, Nat.min_eq_left hle]

set_option maxRecDepth 8000 in
/-- Claim C9 witness: the spec's instance — content of length 300,
`max_length` 100 — yields exactly 100 characters ending in `"..."`. -/
theorem get_full_content_truncates_witness :
    ((Post.get_full_content samplePost300 (some 100)).length : Int) = 100 ∧
    ∃ pre, Post.get_full_content samplePost300 (some 100) = pre ++ "...".data :=
  get_full_content_truncates samplePost300 100 (by decide) (by decide)

/-- Claim C9 counterexample: with a composed text of length 4 and
`max_length = 2`, the slice bound `2 - 3` is negative, so the result has
length 6, not the claimed exact `max_length`. -/
theorem get_full_content_small_max_not_exact :
    ((samplePostShort.full_text).length : Int) > 2 ∧
    ((Post.get_full_content samplePostShort (some 2)).length : Int) ≠ 2 := by
  decide

end SocialScheduler
